import Mathlib

/-!
Verification of the file-scoped revision-history pane
(`src/components/file_revlog.rs`, `FileRevlogComponent`).

The component itself is embedded directly from the source.  Its
collaborators (`AsyncLog`, `AsyncDiff`, `ItemBatch`, `DiffComponent`,
`event_pump`, the key configuration and the notification enum) live in
other parts of the repository and are modelled from the spec; every such
definition carries a doc comment starting with `Modelled from the spec:`.

Machine integers: `usize` values are modelled as `Nat`; `saturating_sub`
is `Nat` subtraction, and `saturating_add` is addition capped at
`USIZE_MAX = 2 ^ 64 - 1`.  Fallible operations (`Result<T>` in the
source) are modelled as `Option`, with `none` standing for a backend
failure that the `?` operator would propagate.
-/

namespace FileRevlog

/-- A commit identifier (opaque in this core). -/
abbrev CommitId := Nat

/-- A key code (key bindings are compared by equality in the source). -/
abbrev Key := Nat

/-- A computed diff body (opaque to this core; only its identity matters). -/
abbrev FileDiff := Nat

/-- Upper bound of `usize` on a 64-bit target. -/
def USIZE_MAX : Nat := 2 ^ 64 - 1

/-- `usize::saturating_add`. -/
def saturating_add (a b : Nat) : Nat := min (a + b) USIZE_MAX

/-- `SLICE_SIZE` constant from the source (line 33). -/
def SLICE_SIZE : Nat := 1200

/-- Modelled from the spec: `fetch()` distinguishes "the stream was
(re)started" from "no identity change". -/
inductive FetchStatus where
  | Started
  | NoChange
deriving DecidableEq, Repr

/-- Modelled from the spec: the RevisionCursor (`AsyncLog`).  A snapshot of
the poll results the cursor would give during one synchronous pass:
`countRes`/`fetchRes` are the results of `count()`/`fetch()` (`none` is a
backend failure), `ids` the materialized identifiers backing `get_slice`,
`pendingFlag` the `is_pending()` answer, and `filterPath` the file filter
the cursor was created with. -/
structure AsyncLog where
  filterPath : String
  countRes : Option Nat
  fetchRes : Option FetchStatus
  ids : Option (List CommitId)
  pendingFlag : Bool
deriving DecidableEq, Repr

/-- Modelled from the spec: `count()` returns the current known total. -/
def AsyncLog.count (l : AsyncLog) : Option Nat := l.countRes

/-- Modelled from the spec: `fetch()` polls whether the producer
(re)started. -/
def AsyncLog.fetch (l : AsyncLog) : Option FetchStatus := l.fetchRes

/-- Modelled from the spec: `get_slice(start, max_len)` returns up to
`max_len` identifiers from logical offset `start`, without blocking. -/
def AsyncLog.get_slice (l : AsyncLog) (start len : Nat) :
    Option (List CommitId) :=
  l.ids.map (fun xs => (xs.drop start).take len)

/-- Modelled from the spec: a freshly allocated cursor (as built by
`open`) has nothing materialized yet: a total of 0, an empty slice, and a
first `fetch()` that reports the stream as started. -/
def freshLog (fp : String) : AsyncLog :=
  { filterPath := fp
    countRes := some 0
    fetchRes := some FetchStatus.Started
    ids := some []
    pendingFlag := true }

/-- Modelled from the spec: diff options; a value type with structural
equality, only its `default` is used by this component. -/
structure DiffOptions where
  ignore_whitespace : Bool
  context : Nat
deriving DecidableEq, Repr

/-- `DiffOptions::default()`. -/
def DiffOptions.default : DiffOptions :=
  { ignore_whitespace := false, context := 3 }

/-- Modelled from the spec: the diff target; this component only builds
`Commit` targets. -/
inductive DiffType where
  | Commit (id : CommitId)
deriving DecidableEq, Repr

/-- `DiffParams` as built in `update_diff` (source lines 169-173): a value
type with structural equality. -/
structure DiffParams where
  path : String
  diff_type : DiffType
  options : DiffOptions
deriving DecidableEq, Repr

/-- Modelled from the spec: the DetailSource (`AsyncDiff`).  `lastDone`
is the most recently *completed* (request, result) pair returned by
`last()`; `requests` records every `request()` call (used to state the
de-duplication properties); `pendingFlag` answers `is_pending()`. -/
structure AsyncDiff where
  lastDone : Option (DiffParams × FileDiff)
  requests : List DiffParams
  pendingFlag : Bool
deriving DecidableEq, Repr

/-- Modelled from the spec: `last()` is a read-only peek at the most
recent completed computation. -/
def AsyncDiff.last (a : AsyncDiff) : Option (DiffParams × FileDiff) :=
  a.lastDone

/-- Modelled from the spec: `request(req)` enqueues asynchronous work; it
never completes synchronously, so `last()` is unchanged. -/
def AsyncDiff.request (a : AsyncDiff) (p : DiffParams) : AsyncDiff :=
  { a with requests := a.requests ++ [p], pendingFlag := true }

/-- Modelled from the spec: the background worker finishing the most
recently issued request (superseded requests are dropped); afterwards
`last()` reflects that complete computation. -/
def AsyncDiff.complete (a : AsyncDiff) (res : FileDiff) : AsyncDiff :=
  match a.requests.getLast? with
  | some p => { a with lastDone := some (p, res), pendingFlag := false }
  | none => a

/-- Modelled from the spec: a RevisionSummary row
({id, short-hash, author, timestamp, message}). -/
structure LogEntry where
  id : CommitId
  hash_short : String
  author : String
  time : Nat
  msg : String
deriving DecidableEq, Repr

/-- Modelled from the spec: the WindowCache (`ItemBatch`): the most
recently fetched contiguous slice together with the offset at which it
begins. -/
structure ItemBatch where
  index_offset : Nat
  items : List LogEntry
deriving DecidableEq, Repr

/-- Modelled from the spec: `needs_data(viewport_start, remote_total)` is
true when the viewport start falls outside the cached window
`[start, start+len)`.  (The spec's total-changed disjunct is omitted:
every use below either forces a refetch through the fetch-started flag or
does not depend on this predicate's value.) -/
def ItemBatch.needs_data (b : ItemBatch) (idx _idx_max : Nat) : Bool :=
  decide (idx < b.index_offset) ||
    decide (b.index_offset + b.items.length ≤ idx)

/-- Modelled from the spec: `set_items` replaces the cache wholesale. -/
def ItemBatch.set_items (_b : ItemBatch) (start : Nat)
    (items : List LogEntry) : ItemBatch :=
  { index_offset := start, items := items }

/-- What the DetailView currently displays: `cleared b` after
`clear(pending = b)` (empty, with `b` marking a pending/loading state),
`shown path d` after `update(path, false, d)`. -/
inductive DiffViewContent where
  | cleared (pending : Bool)
  | shown (path : String) (d : FileDiff)
deriving DecidableEq, Repr

/-- Modelled from the spec: the DetailView (`DiffComponent`): renders a
single cached diff and owns its own focus flag.  `handledKeys` abstracts
which keys its own `event` handler consumes while focused. -/
structure DiffComponent where
  focusedFlag : Bool
  content : DiffViewContent
  handledKeys : List Key
deriving DecidableEq, Repr

/-- `DiffComponent::focused()`. -/
def DiffComponent.focused (c : DiffComponent) : Bool := c.focusedFlag

/-- `DiffComponent::focus(b)`. -/
def DiffComponent.focus (c : DiffComponent) (b : Bool) : DiffComponent :=
  { c with focusedFlag := b }

/-- `DiffComponent::clear(pending)`. -/
def DiffComponent.clear (c : DiffComponent) (pending : Bool) :
    DiffComponent :=
  { c with content := DiffViewContent.cleared pending }

/-- `DiffComponent::update(path, is_stage, diff)` (called with
`is_stage = false` here). -/
def DiffComponent.update (c : DiffComponent) (path : String)
    (_is_stage : Bool) (d : FileDiff) : DiffComponent :=
  { c with content := DiffViewContent.shown path d }

/-- An input event (crossterm `Event`): a key press or another kind of
terminal event. -/
inductive Event where
  | Key (k : Key)
  | Mouse
  | Resize
deriving DecidableEq, Repr

/-- `EventState` returned by `Component::event`. -/
inductive EventState where
  | Consumed
  | NotConsumed
deriving DecidableEq, Repr

/-- `EventState::is_consumed`. -/
def EventState.is_consumed : EventState → Bool
  | EventState.Consumed => true
  | EventState.NotConsumed => false

/-- Modelled from the spec: input is first offered to the DetailView only
if it currently holds focus; it consumes exactly the keys its own handler
recognises. -/
def DiffComponent.consumes (c : DiffComponent) (e : Event) : Bool :=
  match e with
  | Event.Key k => c.handledKeys.contains k
  | _ => false

/-- Modelled from the spec: `event_pump` offers the event to the child
component list (here just the DetailView); routing stops if it is
consumed.  The child consumes input only while focused. -/
def event_pump (diff : DiffComponent) (e : Event) : Bool :=
  diff.focused && diff.consumes e

/-- The key bindings checked by `event` (source lines 418-467). -/
structure KeyConfig where
  exit_popup : Key
  focus_right : Key
  focus_left : Key
  enter : Key
  move_up : Key
  move_down : Key
  shift_up : Key
  home : Key
  shift_down : Key
  end_ : Key
  page_up : Key
  page_down : Key
deriving DecidableEq, Repr

/-- `NeedsUpdate` flags pushed on the queue (only `DIFF` is used here). -/
inductive NeedsUpdate where
  | DIFF
deriving DecidableEq, Repr

/-- Internal events this component pushes on the shared queue. -/
inductive InternalEvent where
  | Update (n : NeedsUpdate)
  | InspectCommit (id : CommitId)
deriving DecidableEq, Repr

/-- Modelled from the spec: the notification kinds on the shared channel
(`AsyncGitNotification`); `Other` stands for every kind this component
ignores. -/
inductive AsyncGitNotification where
  | Log
  | CommitFiles
  | Diff
  | Other
deriving DecidableEq, Repr

/-- `ScrollType` navigation commands. -/
inductive ScrollType where
  | Up
  | Down
  | Home
  | End
  | PageUp
  | PageDown
deriving DecidableEq, Repr

/-- `TableState`: the list widget state; only the selected index
matters here. -/
structure TableState where
  selected : Option Nat
deriving DecidableEq, Repr

/-- `TableState::select`. -/
def TableState.select (_t : TableState) (i : Option Nat) : TableState :=
  { selected := i }

/-- The component state (`FileRevlogComponent`, source lines 36-52).
`queue` records the internal events pushed; `repo_path` is kept for
fidelity but carries no behaviour in this model. -/
structure FileRevlogComponent where
  git_log : Option AsyncLog
  git_diff : AsyncDiff
  diff : DiffComponent
  visible : Bool
  repo_path : String
  file_path : Option String
  table_state : TableState
  items : ItemBatch
  count_total : Nat
  key_config : KeyConfig
  current_width : Nat
  current_height : Nat
  queue : List InternalEvent
deriving DecidableEq, Repr

namespace FileRevlogComponent

/-- `Component::is_visible` (source line 516). -/
def is_visible (s : FileRevlogComponent) : Bool := s.visible

/-- `Component::hide` (source line 520). -/
def hide (s : FileRevlogComponent) : FileRevlogComponent :=
  { s with visible := false }

/-- `Component::show` (source line 524). -/
def show' (s : FileRevlogComponent) : FileRevlogComponent :=
  { s with visible := true }

/-- `selected_commit` (source lines 225-239): the id of the cached item
at the selected index, if any. -/
def selected_commit (s : FileRevlogComponent) : Option CommitId :=
  s.table_state.selected.bind (fun selected =>
    (s.items.items.get? selected).map (fun entry => entry.id))

/-- `can_focus_diff` (source lines 241-243). -/
def can_focus_diff (s : FileRevlogComponent) : Bool :=
  (selected_commit s).isSome

/-- `get_max_selection` (source lines 285-289): a failing or absent
cursor count is treated as 0, then `saturating_sub 1`. -/
def get_max_selection (s : FileRevlogComponent) : Nat :=
  match s.git_log with
  | none => 0
  | some log => (log.count.getD 0) - 1

/-- The new index computed by `move_selection` (source lines 297-312). -/
def new_selection (s : FileRevlogComponent) (scroll_type : ScrollType) :
    Nat :=
  let old_selection := s.table_state.selected.getD 0
  let max_selection := get_max_selection s
  match scroll_type with
  | ScrollType.Up => old_selection - 1
  | ScrollType.Down => min (saturating_add old_selection 1) max_selection
  | ScrollType.Home => 0
  | ScrollType.End => max_selection
  | ScrollType.PageUp => old_selection - (s.current_height - 2)
  | ScrollType.PageDown =>
      min (saturating_add old_selection (s.current_height - 2))
        max_selection

/-- `move_selection` (source lines 291-324): computes the clamped new
index, pushes a DIFF-update event when it changed, selects it, and
returns whether it changed. -/
def move_selection (s : FileRevlogComponent) (scroll_type : ScrollType) :
    FileRevlogComponent × Bool :=
  let old_selection := s.table_state.selected.getD 0
  let new_sel := new_selection s scroll_type
  let needs_update := new_sel ≠ old_selection
  let s1 :=
    if needs_update then
      { s with queue := s.queue ++ [InternalEvent.Update NeedsUpdate.DIFF] }
    else s
  ({ s1 with table_state := s1.table_state.select (some new_sel) },
    needs_update)

/-- The candidate `DiffParams` built in `update_diff`
(source lines 169-173). -/
def mk_diff_params (fp : String) (cid : CommitId) : DiffParams :=
  { path := fp
    diff_type := DiffType.Commit cid
    options := DiffOptions.default }

/-- `update_diff` (source lines 165-200): while visible, with a selected
commit and a file path, compare the candidate params against the last
completed diff; on a match reuse the cached result, otherwise issue a new
request and clear the detail to a loading state.  Without a selected
commit or file path, clear the detail (non-pending). -/
def update_diff (s : FileRevlogComponent) : FileRevlogComponent :=
  if s.is_visible then
    match selected_commit s with
    | some commit_id =>
      match s.file_path with
      | some file_path =>
        let diff_params := mk_diff_params file_path commit_id
        match s.git_diff.last with
        | some (params, last) =>
          if params = diff_params then
            { s with diff := s.diff.update file_path false last }
          else
            { s with
              git_diff := s.git_diff.request diff_params
              diff := s.diff.clear true }
        | none =>
          { s with
            git_diff := s.git_diff.request diff_params
            diff := s.diff.clear true }
      | none => { s with diff := s.diff.clear false }
    | none => { s with diff := s.diff.clear false }
  else s

/-- `get_commits_info` (repository code outside this file).  Modelled
from the spec: turns each identifier into a RevisionSummary row; backend
failure would be `none` (the caller silently skips `set_items` then). -/
def get_commits_info (ids : List CommitId) (_width : Nat) :
    Option (List LogEntry) :=
  some (ids.map (fun i =>
    { id := i, hash_short := "", author := "", time := 0, msg := "" }))

/-- `fetch_commits` (source lines 202-223): pull a slice of size
`SLICE_SIZE` starting at the selected index, replace the window on
success (errors of `get_commits_info` are silently skipped), and record
the cursor's total in `count_total`. -/
def fetch_commits (s : FileRevlogComponent) :
    Option FileRevlogComponent :=
  match s.git_log with
  | none => some s
  | some git_log =>
    let start := s.table_state.selected.getD 0
    match git_log.get_slice start SLICE_SIZE with
    | none => none
    | some ids =>
      let commits := get_commits_info ids s.current_width
      let s1 :=
        match commits with
        | some cs => { s with items := s.items.set_items start cs }
        | none => s
      match git_log.count with
      | none => none
      | some cnt => some { s1 with count_total := cnt }

/-- `update` (source lines 127-146): when a cursor is allocated, poll
`fetch()`, refetch the window if it is stale or the stream restarted,
then run the detail-refresh step.  Note: this function has no visibility
guard of its own. -/
def update (s : FileRevlogComponent) : Option FileRevlogComponent :=
  match s.git_log with
  | none => some s
  | some git_log =>
    match git_log.fetch with
    | none => none
    | some fetch_status =>
      let log_changed := fetch_status = FetchStatus.Started
      let start := s.table_state.selected.getD 0
      match git_log.count with
      | none => none
      | some cnt =>
        let step :=
          if s.items.needs_data start cnt || log_changed then
            fetch_commits s
          else some s
        match step with
        | none => none
        | some s1 => some (update_diff s1)

/-- `update_git` (source lines 149-163): only while visible; a
`Log`/`CommitFiles` notification runs the full `update`, a `Diff`
notification only the detail-refresh step, everything else is ignored. -/
def update_git (s : FileRevlogComponent) (ev : AsyncGitNotification) :
    Option FileRevlogComponent :=
  if s.visible then
    match ev with
    | AsyncGitNotification.CommitFiles => update s
    | AsyncGitNotification.Log => update s
    | AsyncGitNotification.Diff => some (update_diff s)
    | AsyncGitNotification.Other => some s
  else some s

/-- `open` (source lines 96-115): record the file path, allocate a fresh
filtered cursor, select index 0, show the pane, clear the detail view,
and run one synchronous `update` pass. -/
def open_file (s : FileRevlogComponent) (file_path : String) :
    Option FileRevlogComponent :=
  let s1 :=
    { s with
      file_path := some file_path
      git_log := some (freshLog file_path)
      table_state := s.table_state.select (some 0) }
  let s2 := s1.show'
  let s3 := { s2 with diff := s2.diff.clear false }
  update s3

/-- `Component::event` (source lines 407-474): while visible, first offer
the event to the focused child; otherwise dispatch the key through the
binding chain; every branch but the inspect key without a selection ends
in `Consumed`; while hidden, `NotConsumed`. -/
def event (s : FileRevlogComponent) (e : Event) :
    FileRevlogComponent × EventState :=
  if s.is_visible then
    if event_pump s.diff e then (s, EventState.Consumed)
    else
      match e with
      | Event.Key key =>
        if key = s.key_config.exit_popup then
          (s.hide, EventState.Consumed)
        else if key = s.key_config.focus_right ∧ s.can_focus_diff then
          ({ s with diff := s.diff.focus true }, EventState.Consumed)
        else if key = s.key_config.focus_left then
          if s.diff.focused then
            ({ s with diff := s.diff.focus false }, EventState.Consumed)
          else
            (s.hide, EventState.Consumed)
        else if key = s.key_config.enter then
          let s1 := s.hide
          match selected_commit s1 with
          | some id =>
            ({ s1 with
                queue := s1.queue ++ [InternalEvent.InspectCommit id] },
              EventState.Consumed)
          | none => (s1, EventState.NotConsumed)
        else if key = s.key_config.move_up then
          ((move_selection s ScrollType.Up).1, EventState.Consumed)
        else if key = s.key_config.move_down then
          ((move_selection s ScrollType.Down).1, EventState.Consumed)
        else if key = s.key_config.shift_up ∨ key = s.key_config.home then
          ((move_selection s ScrollType.Home).1, EventState.Consumed)
        else if key = s.key_config.shift_down ∨ key = s.key_config.end_
        then
          ((move_selection s ScrollType.End).1, EventState.Consumed)
        else if key = s.key_config.page_up then
          ((move_selection s ScrollType.PageUp).1, EventState.Consumed)
        else if key = s.key_config.page_down then
          ((move_selection s ScrollType.PageDown).1, EventState.Consumed)
        else (s, EventState.Consumed)
      | _ => (s, EventState.Consumed)
  else (s, EventState.NotConsumed)

/-- A sequence of `move_selection` operations (states threaded, changed
flags discarded). -/
def runMoves (s : FileRevlogComponent) (ops : List ScrollType) :
    FileRevlogComponent :=
  ops.foldl (fun t op => (move_selection t op).1) s

/-- The total revision count the cursor reports (0 when the cursor is
absent or its `count()` fails), i.e. the `T` of the claims. -/
def total_count (s : FileRevlogComponent) : Nat :=
  match s.git_log with
  | none => 0
  | some log => log.count.getD 0

end FileRevlogComponent

/-- The DetailSource worker finishing the in-flight request between two
passes: only the `git_diff` collaborator changes. -/
def complete_diff (s : FileRevlogComponent) (res : FileDiff) :
    FileRevlogComponent :=
  { s with git_diff := s.git_diff.complete res }

/-! ### Concrete example states used by counterexamples and witnesses -/

/-- A key configuration with pairwise distinct bindings. -/
def kc0 : KeyConfig :=
  { exit_popup := 0, focus_right := 1, focus_left := 2, enter := 3
    move_up := 4, move_down := 5, shift_up := 6, home := 7
    shift_down := 8, end_ := 9, page_up := 10, page_down := 11 }

/-- A cached revision row with id 7. -/
def entry7 : LogEntry :=
  { id := 7, hash_short := "", author := "", time := 0, msg := "" }

/-- A visible component showing one cached revision (id 7) of file
"f.rs", selected at index 0, with no completed diff yet. -/
def baseState : FileRevlogComponent :=
  { git_log := some
      { filterPath := "f.rs", countRes := some 1
        fetchRes := some FetchStatus.NoChange, ids := some [7]
        pendingFlag := false }
    git_diff := { lastDone := none, requests := [], pendingFlag := false }
    diff := { focusedFlag := false
              content := DiffViewContent.cleared false
              handledKeys := [] }
    visible := true
    repo_path := "repo"
    file_path := some "f.rs"
    table_state := { selected := some 0 }
    items := { index_offset := 0, items := [entry7] }
    count_total := 1
    key_config := kc0
    current_width := 80
    current_height := 20
    queue := [] }

/-- A state whose last completed diff already matches the current
selection (file "f.rs", commit 7). -/
def hitState : FileRevlogComponent :=
  { baseState with
    git_diff := { lastDone := some (FileRevlogComponent.mk_diff_params "f.rs" 7, 42)
                  requests := [FileRevlogComponent.mk_diff_params "f.rs" 7]
                  pendingFlag := false } }

/-- A state whose last completed diff is for a different commit (9) than
the current selection (7). -/
def missState : FileRevlogComponent :=
  { baseState with
    git_diff := { lastDone := some (FileRevlogComponent.mk_diff_params "f.rs" 9, 42)
                  requests := [FileRevlogComponent.mk_diff_params "f.rs" 9]
                  pendingFlag := false } }

/-- A visible state with an empty item window (no selectable commit). -/
def emptyState : FileRevlogComponent :=
  { baseState with items := { index_offset := 0, items := [] } }

/-- A hidden state whose cursor has restarted and materialized three
commits: `update` on it refetches even though the pane is hidden. -/
def hiddenBusyState : FileRevlogComponent :=
  { baseState with
    visible := false
    count_total := 0
    items := { index_offset := 0, items := [] }
    git_log := some
      { filterPath := "f.rs", countRes := some 3
        fetchRes := some FetchStatus.Started, ids := some [11, 12, 13]
        pendingFlag := true } }

/-- A state whose cursor `count()` fails, with a stale selection at
index 5. -/
def failCountState : FileRevlogComponent :=
  { baseState with
    table_state := { selected := some 5 }
    git_log := some
      { filterPath := "f.rs", countRes := none
        fetchRes := none, ids := none, pendingFlag := true } }

/-- A state with five cached commits and a selection at index 2, used to
exercise navigation sequences. -/
def navState : FileRevlogComponent :=
  { baseState with
    table_state := { selected := some 2 }
    count_total := 5
    items := { index_offset := 0
               items := [entry7, entry7, entry7, entry7, entry7] }
    git_log := some
      { filterPath := "f.rs", countRes := some 5
        fetchRes := some FetchStatus.NoChange, ids := some [7, 7, 7, 7, 7]
        pendingFlag := false } }

/-- A state with the DetailView focused. -/
def focusedState : FileRevlogComponent :=
  { baseState with
    diff := { focusedFlag := true
              content := DiffViewContent.cleared false
              handledKeys := [] } }

/-- A hidden copy of `baseState`. -/
def hiddenState : FileRevlogComponent := baseState.hide

/-! ### Helper lemmas -/

namespace FileRevlogComponent

theorem move_selection_git_log (s : FileRevlogComponent)
    (op : ScrollType) : (move_selection s op).1.git_log = s.git_log := by
  unfold move_selection
  dsimp only
  split <;> rfl

theorem move_selection_selected (s : FileRevlogComponent)
    (op : ScrollType) :
    (move_selection s op).1.table_state.selected =
      some (new_selection s op) := by
  unfold move_selection
  dsimp only
  split <;> rfl

theorem move_selection_diff (s : FileRevlogComponent)
    (op : ScrollType) : (move_selection s op).1.diff = s.diff := by
  unfold move_selection
  dsimp only
  split <;> rfl

theorem move_selection_max (s : FileRevlogComponent) (op : ScrollType) :
    get_max_selection (move_selection s op).1 = get_max_selection s := by
  unfold get_max_selection
  rw [move_selection_git_log]

theorem new_selection_le (s : FileRevlogComponent) (op : ScrollType)
    (h0 : s.table_state.selected.getD 0 ≤ get_max_selection s) :
    new_selection s op ≤ get_max_selection s := by
  unfold new_selection
  cases op <;> simp only
  · exact le_trans (Nat.sub_le _ _) h0
  · exact min_le_right _ _
  · exact Nat.zero_le _
  · exact le_refl _
  · exact le_trans (Nat.sub_le _ _) h0
  · exact min_le_right _ _

theorem runMoves_le (ops : List ScrollType) (s : FileRevlogComponent)
    (h0 : s.table_state.selected.getD 0 ≤ get_max_selection s) :
    (runMoves s ops).table_state.selected.getD 0 ≤
      get_max_selection s := by
  induction ops generalizing s with
  | nil => exact h0
  | cons op ops ih =>
    have hstep : (move_selection s op).1.table_state.selected.getD 0 ≤
        get_max_selection (move_selection s op).1 := by
      rw [move_selection_selected, move_selection_max]
      exact new_selection_le s op h0
    have := ih (move_selection s op).1 hstep
    rw [move_selection_max] at this
    exact this

theorem get_max_selection_eq_total (s : FileRevlogComponent) :
    get_max_selection s = total_count s - 1 := by
  unfold get_max_selection total_count
  cases s.git_log <;> rfl

theorem update_diff_frame (s : FileRevlogComponent) :
    (update_diff s).table_state = s.table_state ∧
    (update_diff s).items = s.items ∧
    (update_diff s).count_total = s.count_total ∧
    (update_diff s).file_path = s.file_path ∧
    (update_diff s).visible = s.visible ∧
    (update_diff s).git_log = s.git_log ∧
    (update_diff s).queue = s.queue := by
  unfold update_diff
  dsimp only
  repeat' split
  all_goals exact ⟨rfl, rfl, rfl, rfl, rfl, rfl, rfl⟩

theorem update_diff_hit (s : FileRevlogComponent) (cid : CommitId)
    (fp : String) (d : FileDiff)
    (hv : s.visible = true)
    (hsel : selected_commit s = some cid)
    (hfp : s.file_path = some fp)
    (hlast : s.git_diff.last = some (mk_diff_params fp cid, d)) :
    update_diff s = { s with diff := s.diff.update fp false d } := by
  unfold update_diff
  simp only [is_visible, hv, if_true, hsel, hfp, hlast]

theorem update_diff_miss (s : FileRevlogComponent) (cid : CommitId)
    (fp : String)
    (hv : s.visible = true)
    (hsel : selected_commit s = some cid)
    (hfp : s.file_path = some fp)
    (hmiss : ∀ p d, s.git_diff.last = some (p, d) →
      p ≠ mk_diff_params fp cid) :
    update_diff s =
      { s with
        git_diff := s.git_diff.request (mk_diff_params fp cid)
        diff := s.diff.clear true } := by
  unfold update_diff
  simp only [is_visible, hv, if_true, hsel, hfp]
  rcases h : s.git_diff.last with _ | ⟨p, d⟩
  · rfl
  · simp only [if_neg (hmiss p d h)]

end FileRevlogComponent

/-! ### Claim theorems -/

open FileRevlogComponent

theorem AsyncDiff.complete_request (a : AsyncDiff) (p : DiffParams)
    (res : FileDiff) :
    (a.request p).complete res =
      { lastDone := some (p, res)
        requests := a.requests ++ [p]
        pendingFlag := false } := by
  unfold AsyncDiff.complete AsyncDiff.request
  dsimp only
  rw [List.getLast?_concat]

theorem AsyncDiff.complete_requests (a : AsyncDiff) (res : FileDiff) :
    (a.complete res).requests = a.requests := by
  unfold AsyncDiff.complete
  split <;> rfl

theorem selected_commit_congr (u v : FileRevlogComponent)
    (ht : u.table_state = v.table_state) (hi : u.items = v.items) :
    selected_commit u = selected_commit v := by
  unfold FileRevlogComponent.selected_commit
  rw [ht, hi]

theorem update_diff_requests_le (u : FileRevlogComponent)
    (cid : CommitId) (fp : String)
    (hv : u.visible = true)
    (hsel : selected_commit u = some cid)
    (hfp : u.file_path = some fp) :
    (update_diff u).git_diff.requests.length ≤
      u.git_diff.requests.length + 1 := by
  rcases hl : u.git_diff.last with _ | ⟨p, d⟩
  · rw [update_diff_miss u cid fp hv hsel hfp
      (fun p' d' h => by rw [hl] at h; cases h)]
    simp [AsyncDiff.request]
  · by_cases hpd : p = mk_diff_params fp cid
    · subst hpd
      rw [update_diff_hit u cid fp d hv hsel hfp hl]
      simp
    · rw [update_diff_miss u cid fp hv hsel hfp
        (fun p' d' h => by
          rw [hl] at h
          obtain ⟨h1, _⟩ := Prod.mk.inj (Option.some.inj h)
          rw [← h1]
          exact hpd)]
      simp [AsyncDiff.request]


/-- C2: for every sequence of `move_selection` operations (Up, Down,
Home, End, PageUp, PageDown) and the reported total count `T`
(`total_count`, fixed throughout the sequence since `move_selection`
never touches the cursor), the selection index stays within
`[0, max 0 (T-1)]`: starting in bounds, the index after any sequence is
at most `T - 1` (truncated subtraction, which equals `max 0 (T-1)`), and
it can never go below 0 because indices are natural numbers, matching the
source's `saturating_sub`.  Every intermediate index is covered as well:
the state after any prefix of `ops` is itself an instance of this
theorem. -/
theorem claim_C2_selection_in_bounds (s : FileRevlogComponent)
    (ops : List ScrollType)
    (h0 : s.table_state.selected.getD 0 ≤ total_count s - 1) :
    (runMoves s ops).table_state.selected.getD 0 ≤ total_count s - 1 := by
  rw [← get_max_selection_eq_total] at h0 ⊢
  exact runMoves_le ops s h0

theorem claim_C2_witness :
    navState.table_state.selected.getD 0 ≤ total_count navState - 1 ∧
    (runMoves navState
        [ScrollType.Down, ScrollType.PageDown, ScrollType.End,
          ScrollType.Up, ScrollType.Home,
          ScrollType.Down]).table_state.selected.getD 0 ≤
      total_count navState - 1 :=
  ⟨by decide, claim_C2_selection_in_bounds navState _ (by decide)⟩

/-- C7: `move_selection` with PageUp subtracts exactly
`current_height - 2` from the current index (Nat subtraction, i.e.
saturating at 0), and with PageDown adds exactly `current_height - 2`
capped at the maximum index, where `current_height` is the last drawn
area height.  The hypothesis records that the maximum index fits in
`usize`, so the source's `saturating_add` cap at `usize::MAX` never
masks the min-cap. -/
theorem claim_C7_page_moves (s : FileRevlogComponent)
    (hcap : get_max_selection s ≤ USIZE_MAX) :
    (move_selection s ScrollType.PageUp).1.table_state.selected =
      some (s.table_state.selected.getD 0 - (s.current_height - 2)) ∧
    (move_selection s ScrollType.PageDown).1.table_state.selected =
      some (min (s.table_state.selected.getD 0 + (s.current_height - 2))
        (get_max_selection s)) := by
  rw [move_selection_selected, move_selection_selected]
  constructor
  · rfl
  · unfold new_selection saturating_add
    simp only
    congr 1
    omega

theorem claim_C7_witness :
    get_max_selection navState ≤ USIZE_MAX ∧
    ((move_selection navState ScrollType.PageUp).1.table_state.selected =
        some (navState.table_state.selected.getD 0 -
          (navState.current_height - 2)) ∧
      (move_selection navState
          ScrollType.PageDown).1.table_state.selected =
        some (min (navState.table_state.selected.getD 0 +
            (navState.current_height - 2))
          (get_max_selection navState))) :=
  ⟨by decide, claim_C7_page_moves navState (by decide)⟩

/-- C10 (counterexample): with a cursor whose `count()` fails and a stale
selection at index 5, `get_max_selection` is 0 but `move_selection Up`
leaves the selection at 4, not at 0 — so "clamps the selection to
index 0" does not hold for the upward operations. -/
theorem claim_C10_cex :
    failCountState.git_log.isSome = true ∧
    (∀ log, failCountState.git_log = some log → log.count = none) ∧
    get_max_selection failCountState = 0 ∧
    (move_selection failCountState ScrollType.Up).1.table_state.selected =
      some 4 := by
  refine ⟨rfl, ?_, rfl, rfl⟩
  intro log h
  cases Option.some.inj h
  rfl

/-- C10 (amended): a failing `count()` on the revision cursor (or an
absent cursor) is not propagated as an error: `get_max_selection` treats
it as a total of 0, so the maximum index is 0 and `move_selection` always
returns a new state (it cannot fail); Down, End, Home and PageDown clamp
the selection to index 0 from any position, and from index 0 every
operation leaves the selection at 0; Up and PageUp merely
saturating-subtract from a stale larger index. -/
theorem claim_C10_amended (s : FileRevlogComponent)
    (hfail : s.git_log = none ∨
      ∃ log, s.git_log = some log ∧ log.count = none) :
    get_max_selection s = 0 ∧
    (∀ op, (move_selection s op).1.table_state.selected =
      some (new_selection s op)) ∧
    (move_selection s ScrollType.Down).1.table_state.selected = some 0 ∧
    (move_selection s ScrollType.End).1.table_state.selected = some 0 ∧
    (move_selection s ScrollType.Home).1.table_state.selected = some 0 ∧
    (move_selection s ScrollType.PageDown).1.table_state.selected =
      some 0 ∧
    (s.table_state.selected.getD 0 = 0 →
      ∀ op, (move_selection s op).1.table_state.selected = some 0) := by
  have hmax : get_max_selection s = 0 := by
    unfold get_max_selection
    rcases hfail with h | ⟨log, h, hc⟩
    · rw [h]
    · rw [h]
      simp only [hc]
      rfl
  refine ⟨hmax, fun op => move_selection_selected s op, ?_, ?_, ?_, ?_, ?_⟩
  · rw [move_selection_selected]
    unfold new_selection
    rw [hmax]
    simp
  · rw [move_selection_selected]
    unfold new_selection
    rw [hmax]
  · rw [move_selection_selected]
    rfl
  · rw [move_selection_selected]
    unfold new_selection
    rw [hmax]
    simp
  · intro h0 op
    rw [move_selection_selected]
    unfold new_selection
    rw [hmax, h0]
    cases op <;> simp

/-- C1 (counterexample): two consecutive `update_diff` passes over
`baseState` — visible, commit 7 selected, file "f.rs", no completed diff
yet, selection unchanged between the passes — issue a `git_diff.request`
on each pass (the request log grows from 0 to 2), because the
de-duplication compares only against the last *completed* diff, which the
in-flight first request has not produced yet.  This contradicts "for two
consecutive update_diff passes with an unchanged selection,
git_diff.request is called at most once". -/
theorem claim_C1_cex :
    baseState.git_diff.requests.length = 0 ∧
    (update_diff baseState).table_state.selected =
      baseState.table_state.selected ∧
    (update_diff (update_diff baseState)).git_diff.requests.length =
      2 := by
  exact ⟨rfl, rfl, rfl⟩

/-- C1 (amended): if the candidate `DiffParams` built from the current
selection and file path is structurally equal to the params of the last
completed diff (`git_diff.last()`), the cached result is reused to update
the detail view and no new request is issued (the state changes only in
the detail view); and for two consecutive `update_diff` passes with an
unchanged selection, `git_diff.request` is called at most once in total
*provided the request issued by the first pass (if any) has completed
before the second pass* — without that completion the second pass
re-issues the request (see the counterexample). -/
theorem claim_C1_dedup_amended (s : FileRevlogComponent)
    (cid : CommitId) (fp : String) (res : FileDiff)
    (hv : s.visible = true)
    (hsel : selected_commit s = some cid)
    (hfp : s.file_path = some fp) :
    (∀ d, s.git_diff.last = some (mk_diff_params fp cid, d) →
      update_diff s = { s with diff := s.diff.update fp false d }) ∧
    (update_diff
        (complete_diff (update_diff s) res)).git_diff.requests.length ≤
      s.git_diff.requests.length + 1 := by
  have hframe := update_diff_frame s
  have hv2 : (complete_diff (update_diff s) res).visible = true := by
    show (update_diff s).visible = true
    rw [hframe.2.2.2.2.1]
    exact hv
  have hsel2 :
      selected_commit (complete_diff (update_diff s) res) = some cid := by
    rw [selected_commit_congr (complete_diff (update_diff s) res) s
      hframe.1 hframe.2.1]
    exact hsel
  have hfp2 : (complete_diff (update_diff s) res).file_path = some fp := by
    show (update_diff s).file_path = some fp
    rw [hframe.2.2.2.1]
    exact hfp
  constructor
  · intro d hlast
    exact update_diff_hit s cid fp d hv hsel hfp hlast
  · by_cases hhit : ∃ d, s.git_diff.last = some (mk_diff_params fp cid, d)
    · obtain ⟨d, hl⟩ := hhit
      have h1 : (update_diff s).git_diff = s.git_diff := by
        rw [update_diff_hit s cid fp d hv hsel hfp hl]
      have h2 : (complete_diff (update_diff s) res).git_diff.requests =
          s.git_diff.requests := by
        show ((update_diff s).git_diff.complete res).requests = _
        rw [AsyncDiff.complete_requests, h1]
      have h3 := update_diff_requests_le
        (complete_diff (update_diff s) res) cid fp hv2 hsel2 hfp2
      rw [h2] at h3
      exact h3
    · push_neg at hhit
      have hm : ∀ p d, s.git_diff.last = some (p, d) →
          p ≠ mk_diff_params fp cid := by
        intro p d h hc
        rw [hc] at h
        exact hhit d h
      have h1 : (update_diff s).git_diff =
          s.git_diff.request (mk_diff_params fp cid) := by
        rw [update_diff_miss s cid fp hv hsel hfp hm]
      have h2 : (complete_diff (update_diff s) res).git_diff =
          { lastDone := some (mk_diff_params fp cid, res)
            requests := s.git_diff.requests ++ [mk_diff_params fp cid]
            pendingFlag := false } := by
        show (update_diff s).git_diff.complete res = _
        rw [h1, AsyncDiff.complete_request]
      have hlast2 : (complete_diff (update_diff s) res).git_diff.last =
          some (mk_diff_params fp cid, res) := by
        show (complete_diff (update_diff s) res).git_diff.lastDone = _
        rw [h2]
      have h3 : (update_diff (complete_diff (update_diff s) res)).git_diff
          = (complete_diff (update_diff s) res).git_diff := by
        rw [update_diff_hit (complete_diff (update_diff s) res) cid fp res
          hv2 hsel2 hfp2 hlast2]
      rw [h3, h2]
      simp

theorem claim_C1_witness :
    hitState.visible = true ∧
    selected_commit hitState = some 7 ∧
    hitState.file_path = some "f.rs" ∧
    ((∀ d, hitState.git_diff.last = some (mk_diff_params "f.rs" 7, d) →
        update_diff hitState =
          { hitState with diff := hitState.diff.update "f.rs" false d }) ∧
      (update_diff
          (complete_diff (update_diff hitState)
            99)).git_diff.requests.length ≤
        hitState.git_diff.requests.length + 1) :=
  ⟨rfl, by decide, rfl,
    claim_C1_dedup_amended hitState 7 "f.rs" 99 rfl (by decide) rfl⟩

/-- C4: in `update_diff`, whenever the candidate `DiffParams` differs
from the params of the last completed diff (or there is no completed
diff at all), the displayed detail is cleared to the empty/loading state
(`cleared true`) and a new request for exactly the candidate params is
issued, so the detail view never shows a stale diff for a newly selected
revision before its result is ready. -/
theorem claim_C4_stale_cleared (s : FileRevlogComponent)
    (cid : CommitId) (fp : String)
    (hv : s.visible = true)
    (hsel : selected_commit s = some cid)
    (hfp : s.file_path = some fp)
    (hmiss : ∀ p d, s.git_diff.last = some (p, d) →
      p ≠ mk_diff_params fp cid) :
    (update_diff s).diff.content = DiffViewContent.cleared true ∧
    (update_diff s).git_diff.requests =
      s.git_diff.requests ++ [mk_diff_params fp cid] := by
  rw [update_diff_miss s cid fp hv hsel hfp hmiss]
  exact ⟨rfl, rfl⟩

theorem claim_C4_witness :
    missState.visible = true ∧
    selected_commit missState = some 7 ∧
    missState.file_path = some "f.rs" ∧
    ((update_diff missState).diff.content =
        DiffViewContent.cleared true ∧
      (update_diff missState).git_diff.requests =
        missState.git_diff.requests ++ [mk_diff_params "f.rs" 7]) :=
  ⟨rfl, by decide, rfl,
    claim_C4_stale_cleared missState 7 "f.rs" rfl (by decide) rfl
      (fun p d h => by
        obtain ⟨h1, _⟩ := Prod.mk.inj (Option.some.inj h)
        rw [← h1]
        decide)⟩

/-- C8: `update_git` with a `Diff` notification runs only the
detail-refresh step (`update_diff`), which leaves the cached item window
`items`, `count_total` and the selection (`table_state`) unchanged; only
`Log`/`CommitFiles` notifications trigger the full `update` that may
refetch the window. -/
theorem claim_C8_diff_notification_frame (s : FileRevlogComponent)
    (hv : s.visible = true) :
    update_git s AsyncGitNotification.Diff = some (update_diff s) ∧
    (update_diff s).items = s.items ∧
    (update_diff s).count_total = s.count_total ∧
    (update_diff s).table_state = s.table_state ∧
    update_git s AsyncGitNotification.Log = update s ∧
    update_git s AsyncGitNotification.CommitFiles = update s := by
  have h := update_diff_frame s
  refine ⟨?_, h.2.1, h.2.2.1, h.1, ?_, ?_⟩ <;> simp [update_git, hv]

theorem claim_C8_witness :
    baseState.visible = true ∧
    (update_git baseState AsyncGitNotification.Diff =
        some (update_diff baseState) ∧
      (update_diff baseState).items = baseState.items ∧
      (update_diff baseState).count_total = baseState.count_total ∧
      (update_diff baseState).table_state = baseState.table_state ∧
      update_git baseState AsyncGitNotification.Log = update baseState ∧
      update_git baseState AsyncGitNotification.CommitFiles =
        update baseState) :=
  ⟨rfl, claim_C8_diff_notification_frame baseState rfl⟩

/-- C3: after `open(file_path)` — including a re-open with a different
path over an arbitrary dirty prior state — the selection index is exactly
0, the cached item window is reset to the empty window (so no revision
rows cached for the prior file remain observable), the detail view is
cleared, and a fresh cursor filtered to the new path is installed (the
freshly allocated cursor has nothing materialized yet, so the synchronous
`update()` inside `open` repopulates the window with the empty slice). -/
theorem claim_C3_open_resets (s : FileRevlogComponent) (fp : String) :
    ∃ s2, open_file s fp = some s2 ∧
      s2.table_state.selected = some 0 ∧
      s2.items = { index_offset := 0, items := [] } ∧
      s2.diff.content = DiffViewContent.cleared false ∧
      s2.file_path = some fp ∧
      s2.git_log = some (freshLog fp) ∧
      s2.count_total = 0 ∧
      s2.visible = true := by
  refine ⟨{ s with
      file_path := some fp
      git_log := some (freshLog fp)
      table_state := { selected := some 0 }
      visible := true
      items := { index_offset := 0, items := [] }
      count_total := 0
      diff := { s.diff with content := DiffViewContent.cleared false } },
    ?_, rfl, rfl, rfl, rfl, rfl, rfl, rfl⟩
  unfold open_file update fetch_commits update_diff
  simp [show', is_visible, AsyncLog.fetch, AsyncLog.count,
    AsyncLog.get_slice, freshLog, get_commits_info, ItemBatch.set_items,
    DiffComponent.clear, TableState.select, selected_commit]

/-- C5 (counterexample): with the pane visible, the DetailView unfocused
(so it does not consume the key) and no selectable commit (empty item
window), the `enter` key — a key that *does* match a binding — makes
`event` return `NotConsumed` (while also hiding the pane), contradicting
"event() returns Consumed for every input event not consumed by the
focused DetailView". -/
theorem claim_C5_cex :
    emptyState.visible = true ∧
    emptyState.diff.focused = false ∧
    (event emptyState
        (Event.Key emptyState.key_config.enter)).2 =
      EventState.NotConsumed ∧
    (event emptyState
        (Event.Key emptyState.key_config.enter)).1.visible = false := by
  exact ⟨rfl, rfl, rfl, rfl⟩

set_option maxHeartbeats 4000000 in
/-- C5 (amended): for every input event received while the pane is
visible and not consumed by the focused DetailView, `event()` returns
`Consumed` — including keys that match no binding — with one exception:
the inspect (`enter`) key when no commit is selected, which hides the
pane and returns `NotConsumed`. -/
theorem claim_C5_consumed_amended (s : FileRevlogComponent) (e : Event)
    (hv : s.visible = true)
    (hnc : event_pump s.diff e = false) :
    (event s e).2 = EventState.Consumed ∨
      ((event s e).2 = EventState.NotConsumed ∧
        e = Event.Key s.key_config.enter ∧
        selected_commit s = none ∧
        (event s e).1.visible = false) := by
  unfold FileRevlogComponent.event
  rw [if_pos (show is_visible s = true from hv),
    if_neg (show ¬(event_pump s.diff e = true) by
      rw [hnc]
      exact Bool.false_ne_true)]
  cases e with
  | Key k =>
    try dsimp only
    split_ifs with h1 h2 h3 h4 h5 h6 h7 h8 h9 h10 h11 <;>
      try exact Or.inl rfl
    try dsimp only
    rcases hsc : selected_commit (FileRevlogComponent.hide s) with _ | cid
    · simp only [hsc]
      refine Or.inr ⟨?_, ?_, ?_, ?_⟩ <;>
        first
          | trivial
          | rw [h5]
    · simp only [hsc]
      exact Or.inl trivial
  | Mouse => exact Or.inl rfl
  | Resize => exact Or.inl rfl

set_option maxHeartbeats 1000000 in
theorem claim_C5_witness :
    baseState.visible = true ∧
    event_pump baseState.diff (Event.Key 12) = false ∧
    ((event baseState (Event.Key 12)).2 = EventState.Consumed ∨
      ((event baseState (Event.Key 12)).2 = EventState.NotConsumed ∧
        Event.Key 12 = Event.Key baseState.key_config.enter ∧
        selected_commit baseState = none ∧
        (event baseState (Event.Key 12)).1.visible = false)) :=
  ⟨rfl, rfl, claim_C5_consumed_amended baseState (Event.Key 12) rfl rfl⟩

set_option maxHeartbeats 4000000 in
/-- C6: while visible, the `focus_left` key unfocuses the DetailView
without hiding the pane when the DetailView currently has focus, and
hides the pane when the list already has focus; the `focus_right` key
gives the DetailView focus when a commit is selected, and when no commit
is selected no key at all can give the DetailView focus.  The
distinctness hypotheses say the three focus-related bindings do not
shadow each other, and `h4` says the DetailView's own handler does not
handle the `focus_left` key itself. -/
theorem claim_C6_focus_routing (s : FileRevlogComponent)
    (hv : s.visible = true)
    (h1 : s.key_config.focus_left ≠ s.key_config.exit_popup)
    (h2 : s.key_config.focus_left ≠ s.key_config.focus_right)
    (h3 : s.key_config.focus_right ≠ s.key_config.exit_popup)
    (h4 : s.key_config.focus_left ∉ s.diff.handledKeys) :
    (s.diff.focused = true →
      (event s (Event.Key s.key_config.focus_left)).1.diff.focused =
          false ∧
        (event s (Event.Key s.key_config.focus_left)).1.visible = true ∧
        (event s (Event.Key s.key_config.focus_left)).2 =
          EventState.Consumed) ∧
    (s.diff.focused = false →
      (event s (Event.Key s.key_config.focus_left)).1.visible = false ∧
        (event s (Event.Key s.key_config.focus_left)).2 =
          EventState.Consumed) ∧
    (∀ cid, s.diff.focused = false → selected_commit s = some cid →
      (event s (Event.Key s.key_config.focus_right)).1.diff.focused =
          true ∧
        (event s (Event.Key s.key_config.focus_right)).2 =
          EventState.Consumed) ∧
    (s.diff.focused = false → selected_commit s = none →
      ∀ k, (event s (Event.Key k)).1.diff.focused = false) := by
  refine ⟨?_, ?_, ?_, ?_⟩
  · intro hf
    have hff : s.diff.focusedFlag = true := hf
    unfold FileRevlogComponent.event event_pump DiffComponent.consumes
    simp [is_visible, hv, hff, h4, h1, h2, DiffComponent.focus,
      DiffComponent.focused]
  · intro hf
    have hff : s.diff.focusedFlag = false := hf
    unfold FileRevlogComponent.event event_pump DiffComponent.consumes
    simp [is_visible, hv, hff, h1, h2, DiffComponent.focused,
      FileRevlogComponent.hide]
  · intro cid hf hsc
    have hff : s.diff.focusedFlag = false := hf
    unfold FileRevlogComponent.event event_pump DiffComponent.consumes
    simp [is_visible, hv, hff, h3, hsc, can_focus_diff,
      DiffComponent.focus, DiffComponent.focused]
  · intro hf hsc k
    have hcan : can_focus_diff s = false := by
      unfold FileRevlogComponent.can_focus_diff
      rw [hsc]
      rfl
    have hnc : event_pump s.diff (Event.Key k) = false := by
      have hff : s.diff.focusedFlag = false := hf
      simp [event_pump, DiffComponent.focused, hff]
    unfold FileRevlogComponent.event
    rw [if_pos (show is_visible s = true from hv),
      if_neg (show ¬(event_pump s.diff (Event.Key k) = true) by
        rw [hnc]
        exact Bool.false_ne_true)]
    dsimp only
    split_ifs with a1 a2 a3 a4 a5 a6 a7 a8 a9 a10 a11 <;>
      try exact hf
    · exact absurd a2.2 (by rw [hcan]; exact Bool.false_ne_true)
    · exact absurd a4 (by rw [hf]; exact Bool.false_ne_true)
    · try dsimp only
      rw [selected_commit_congr (FileRevlogComponent.hide s) s rfl rfl,
        hsc]
      exact hf
    all_goals
      dsimp only
      rw [move_selection_diff]
      exact hf

set_option maxHeartbeats 1000000 in
theorem claim_C6_witness :
    focusedState.visible = true ∧
    ((focusedState.diff.focused = true →
      (event focusedState
          (Event.Key
            focusedState.key_config.focus_left)).1.diff.focused =
          false ∧
        (event focusedState
            (Event.Key focusedState.key_config.focus_left)).1.visible =
          true ∧
        (event focusedState
            (Event.Key focusedState.key_config.focus_left)).2 =
          EventState.Consumed) ∧
    (focusedState.diff.focused = false →
      (event focusedState
            (Event.Key focusedState.key_config.focus_left)).1.visible =
          false ∧
        (event focusedState
            (Event.Key focusedState.key_config.focus_left)).2 =
          EventState.Consumed) ∧
    (∀ cid, focusedState.diff.focused = false →
      selected_commit focusedState = some cid →
      (event focusedState
            (Event.Key
              focusedState.key_config.focus_right)).1.diff.focused =
          true ∧
        (event focusedState
            (Event.Key focusedState.key_config.focus_right)).2 =
          EventState.Consumed) ∧
    (focusedState.diff.focused = false →
      selected_commit focusedState = none →
      ∀ k, (event focusedState (Event.Key k)).1.diff.focused = false)) :=
  ⟨rfl,
    claim_C6_focus_routing focusedState rfl (by decide) (by decide)
      (by decide) (by decide)⟩

/-- C9 (counterexample): while hidden, `update()` is *not* a no-op: it
has no visibility guard, so on a hidden state whose allocated cursor has
restarted with three materialized commits it refetches the window and
changes `count_total` from 0 to 3 and the cached items from empty to
three rows — contradicting "update() triggers no fetching and no state
change while the pane is not visible". -/
theorem claim_C9_cex :
    hiddenBusyState.visible = false ∧
    hiddenBusyState.count_total = 0 ∧
    hiddenBusyState.items.items.length = 0 ∧
    (update hiddenBusyState).map FileRevlogComponent.count_total =
      some 3 ∧
    (update hiddenBusyState).map (fun t => t.items.items.length) =
      some 3 := by
  exact ⟨rfl, rfl, rfl, rfl, rfl⟩

/-- C9 (amended): while the pane is not visible it accepts no input and
the notification-driven entry points do no work: `event()` returns
`NotConsumed` leaving the state untouched, `update_git()` is a no-op for
every notification kind, and `update_diff()` changes nothing.  `update()`
itself, however, has no visibility guard: called directly on a hidden
state with an allocated cursor it still polls and refetches (see the
counterexample); in the source only the visibility-guarded `update_git`
and `open` invoke it. -/
theorem claim_C9_hidden_amended (s : FileRevlogComponent) (e : Event)
    (n : AsyncGitNotification) (hv : s.visible = false) :
    event s e = (s, EventState.NotConsumed) ∧
    update_git s n = some s ∧
    update_diff s = s := by
  refine ⟨?_, ?_, ?_⟩
  · unfold FileRevlogComponent.event
    simp [is_visible, hv]
  · unfold update_git
    simp [hv]
  · unfold update_diff
    simp [is_visible, hv]

theorem claim_C9_witness :
    hiddenState.visible = false ∧
    (event hiddenState (Event.Key 3) =
        (hiddenState, EventState.NotConsumed) ∧
      update_git hiddenState AsyncGitNotification.Log =
        some hiddenState ∧
      update_diff hiddenState = hiddenState) :=
  ⟨rfl,
    claim_C9_hidden_amended hiddenState (Event.Key 3)
      AsyncGitNotification.Log rfl⟩

theorem claim_C10_witness :
    (failCountState.git_log = none ∨
      ∃ log, failCountState.git_log = some log ∧ log.count = none) ∧
    get_max_selection failCountState = 0 ∧
    (move_selection failCountState
        ScrollType.End).1.table_state.selected = some 0 :=
  ⟨Or.inr ⟨_, rfl, rfl⟩,
    (claim_C10_amended failCountState (Or.inr ⟨_, rfl, rfl⟩)).1,
    (claim_C10_amended failCountState
      (Or.inr ⟨_, rfl, rfl⟩)).2.2.2.1⟩

end FileRevlog
